import Mathlib

/-!
Shallow embedding of the password-manager source `src/pwm.py` and verification of
the specification's claims about it.

The `DataclassDatabase` class is embedded as a structure together with pure
state-passing operations.  Python dictionaries are modelled as association lists
with unique keys; dictionary membership, assignment and deletion are embedded by
`dictLookup`, `dictSet` and `dictRemove`.  File-system effects of the store
(`save`, performed by `open(path, 'w')` followed by `json.dump`) are modelled as
an explicit trace of `FileOp` events, so that claims about the persistence
discipline can be stated and settled.

The external `cryptography` library (PBKDF2HMAC, Fernet) is modelled
symbolically as ideal deterministic key derivation and ideal authenticated
encryption: a Fernet token records the key it was produced under and decrypts
exactly under that key.  Random inputs drawn by the source (`os.urandom` for the
salt, `Fernet.generate_key` for the data key, the fresh nonce drawn inside
`Fernet.encrypt`) are passed as explicit parameters.
-/

/-- Errors raised by `DataclassDatabase` in `src/pwm.py` (lines 91-100). -/
inductive DBError where
  | DoesNotExistError
  | AlreadyExistsError
  | DatabaseClassMismatchError
  deriving DecidableEq

/-- The `Site` dataclass (`src/pwm.py` lines 103-106). -/
structure Site where
  login : String
  password : String
  deriving DecidableEq

/-- Serialized form of a persisted record: `dataclasses.asdict` applied to a
`Site` yields its field values in declaration order (login, password). -/
def Site.ser (s : Site) : String × String :=
  (s.login, s.password)

/-- Reconstruction of a `Site` from its serialized values, as done by
`self.class_(*object_as_dict.values())` in `DataclassDatabase.load`. -/
def Site.deser (p : String × String) : Site :=
  { login := p.1, password := p.2 }

/-- The on-disk document written by `json.dump`: a schema tag (the `class` key)
and a name-to-serialized-record mapping (the `data` key).  `n_entries` is a
plain attribute of the Python object, not part of `self.database`, so it is not
serialized. -/
structure DBFile (ρ : Type) where
  class_ : String
  data : List (String × ρ)
  deriving DecidableEq

/-- File-system events a store operation can perform.  `openTruncate` is the
effect of `open(path, 'w')`: it truncates the named file in place.
`writeNewAndReplace` is the atomic write-new-file-then-replace-old discipline
that the specification describes; it is part of the event language so that its
presence or absence in a trace can be stated. -/
inductive FileOp (ρ : Type) where
  | openTruncate (path : String)
  | writeContent (path : String) (file : DBFile ρ)
  | writeNewAndReplace (tmpPath : String) (path : String) (file : DBFile ρ)
  deriving DecidableEq

/-- In-memory state of a `DataclassDatabase` (`src/pwm.py` lines 22-88).
`class_` is the expected schema name `self.class_.__name__`; after `load` the
stored tag equals it, so one field models both.  `data` models
`self.database['data']` as an association list with unique keys. -/
structure DataclassDatabase (α : Type) where
  class_ : String
  database_path : String
  data : List (String × α)
  n_entries : Nat
  deriving DecidableEq

/-- Python dictionary lookup `d[name]` / membership `name in d`. -/
def dictLookup (d : List (String × α)) (name : String) : Option α :=
  match d with
  | [] => none
  | (k, v) :: rest => if k = name then some v else dictLookup rest name

/-- Python dictionary assignment `d[name] = v`: replace the binding if the key
is present, otherwise append a new binding. -/
def dictSet (d : List (String × α)) (name : String) (v : α) : List (String × α) :=
  match d with
  | [] => [(name, v)]
  | (k, w) :: rest => if k = name then (k, v) :: rest else (k, w) :: dictSet rest name v

/-- Python dictionary deletion `del d[name]`.  Dictionary keys are unique, so
removing every binding with the key models `del` on all reachable states. -/
def dictRemove (d : List (String × α)) (name : String) : List (String × α) :=
  match d with
  | [] => []
  | (k, v) :: rest => if k = name then dictRemove rest name else (k, v) :: dictRemove rest name

/-- Insertion into a key-sorted association list, used to model
`json.dump(..., sort_keys=True)`. -/
def insertSorted (p : String × ρ) : List (String × ρ) → List (String × ρ)
  | [] => [p]
  | q :: rest => if p.1 ≤ q.1 then p :: q :: rest else q :: insertSorted p rest

/-- Key-sorting of the persisted mapping, from `sort_keys=True` in `save`. -/
def sortByKey : List (String × ρ) → List (String × ρ)
  | [] => []
  | p :: rest => insertSorted p (sortByKey rest)

/-- Serialization of the full in-memory state to the on-disk document, as done
by `json.dump(self.database, f, cls=JSONDataclassEncoder, indent=4,
sort_keys=True)` (`src/pwm.py` line 55). -/
def serializeDB (ser : α → ρ) (db : DataclassDatabase α) : DBFile ρ :=
  { class_ := db.class_
    data := sortByKey (db.data.map (fun p => (p.1, ser p.2))) }

/-- `DataclassDatabase.update_n_entries` (`src/pwm.py` lines 78-79). -/
def DataclassDatabase.update_n_entries (db : DataclassDatabase α) : DataclassDatabase α :=
  { db with n_entries := db.data.length }

/-- `DataclassDatabase.save` (`src/pwm.py` lines 53-55): `open(self.database_path,
'w')` truncates the backing file in place, then the whole state is dumped into
it. -/
def DataclassDatabase.save (ser : α → ρ) (db : DataclassDatabase α) : List (FileOp ρ) :=
  [FileOp.openTruncate db.database_path,
   FileOp.writeContent db.database_path (serializeDB ser db)]

/-- `DataclassDatabase.get` (`src/pwm.py` lines 34-37).  It only reads the
state, so it returns no successor state. -/
def DataclassDatabase.get (db : DataclassDatabase α) (name : String) : Except DBError α :=
  match dictLookup db.data name with
  | none => Except.error DBError.DoesNotExistError
  | some v => Except.ok v

/-- `DataclassDatabase.new` (`src/pwm.py` lines 39-44).  The result is the
raised-or-returned outcome, the state of the object after the call (the raise
happens before any mutation), and the file-system trace. -/
def DataclassDatabase.new (ser : α → ρ) (db : DataclassDatabase α) (name : String)
    (instance_ : α) : Except DBError Unit × DataclassDatabase α × List (FileOp ρ) :=
  match dictLookup db.data name with
  | some _ => (Except.error DBError.AlreadyExistsError, db, [])
  | none =>
    let db2 := DataclassDatabase.update_n_entries { db with data := dictSet db.data name instance_ }
    (Except.ok (), db2, DataclassDatabase.save ser db2)

/-- `DataclassDatabase.remove` (`src/pwm.py` lines 46-51). -/
def DataclassDatabase.remove (ser : α → ρ) (db : DataclassDatabase α) (name : String) :
    Except DBError Unit × DataclassDatabase α × List (FileOp ρ) :=
  match dictLookup db.data name with
  | none => (Except.error DBError.DoesNotExistError, db, [])
  | some _ =>
    let db2 := DataclassDatabase.update_n_entries { db with data := dictRemove db.data name }
    (Except.ok (), db2, DataclassDatabase.save ser db2)

/-- `DataclassDatabase.drop` (`src/pwm.py` lines 73-76): clear the mapping,
refresh the counter, persist.  It raises nothing, so the outcome is always
`ok`. -/
def DataclassDatabase.drop (ser : α → ρ) (db : DataclassDatabase α) :
    Except DBError Unit × DataclassDatabase α × List (FileOp ρ) :=
  let db2 := DataclassDatabase.update_n_entries { db with data := [] }
  (Except.ok (), db2, DataclassDatabase.save ser db2)

/-- `DataclassDatabase.load` (`src/pwm.py` lines 57-66): the schema tag of the
parsed file is compared with the expected class name before the conversion loop
runs; on mismatch `DatabaseClassMismatchError` is raised and no record is
deserialized (the result does not depend on `deser`). -/
def DataclassDatabase.load (class_ : String) (database_path : String) (deser : ρ → α)
    (f : DBFile ρ) : Except DBError (DataclassDatabase α) :=
  if f.class_ ≠ class_ then Except.error DBError.DatabaseClassMismatchError
  else
    Except.ok (DataclassDatabase.update_n_entries
      { class_ := f.class_
        database_path := database_path
        data := f.data.map (fun p => (p.1, deser p.2))
        n_entries := 0 })

/-- `DataclassDatabase.init` (`src/pwm.py` lines 68-71): fresh empty state,
persisted immediately. -/
def DataclassDatabase.init (ser : α → ρ) (class_ : String) (database_path : String) :
    DataclassDatabase α × List (FileOp ρ) :=
  let db := DataclassDatabase.update_n_entries
    { class_ := class_, database_path := database_path, data := [], n_entries := 0 }
  (db, DataclassDatabase.save ser db)

/-- `DataclassDatabase.__init__` (`src/pwm.py` lines 24-32): append `.json` to
the path, then load the backing file, falling back to `init` when the file does
not exist (`file = none`).  A schema mismatch propagates. -/
def DataclassDatabase.construct (ser : α → ρ) (deser : ρ → α) (class_ : String)
    (database_path : String) (file : Option (DBFile ρ)) :
    Except DBError (DataclassDatabase α × List (FileOp ρ)) :=
  match file with
  | none => Except.ok (DataclassDatabase.init ser class_ (database_path ++ ".json"))
  | some f =>
    match DataclassDatabase.load class_ (database_path ++ ".json") deser f with
    | Except.error e => Except.error e
    | Except.ok db => Except.ok (db, [])

/-- The invariant maintained by `update_n_entries`: the entry counter equals the
number of records in the mapping. -/
def DataclassDatabase.inv (db : DataclassDatabase α) : Prop :=
  db.n_entries = db.data.length

/-- The persistence discipline the specification describes: the trace writes a
new file and then replaces the old one, and never opens the backing file in
truncating write mode. -/
def writes_new_then_replaces (t : List (FileOp ρ)) : Prop :=
  (∃ tmpPath path f, FileOp.writeNewAndReplace tmpPath path f ∈ t) ∧
  ∀ path, FileOp.openTruncate path ∉ t

/-- The `sites new` command core (`src/pwm.py` lines 139-148): build
`Site(login, password)` from the prompted values as given — no cipher is
applied to the password — and insert it. -/
def sites_new (db : DataclassDatabase Site) (name : String) (login : String)
    (password : String) : Except DBError Unit × DataclassDatabase Site × List (FileOp (String × String)) :=
  DataclassDatabase.new Site.ser db name { login := login, password := password }

/-- The `sites get` command core (`src/pwm.py` lines 171-184): look the record
up and hand the requested field to the clipboard as stored — no decryption is
applied. -/
def sites_get (db : DataclassDatabase Site) (name : String) (copy_login : Bool) :
    Except DBError String :=
  match DataclassDatabase.get db name with
  | Except.error e => Except.error e
  | Except.ok site => Except.ok (if copy_login then site.login else site.password)

/-- Hash algorithms of the key-derivation model; the source uses
`hashes.SHA256()`. -/
inductive HashAlg where
  | sha256
  deriving DecidableEq

/-- Symbolic key material.  `pbkdf2hmac` records exactly the inputs the
library's PBKDF2HMAC derivation consumes; `urlsafe_b64` is the (injective)
`base64.urlsafe_b64encode` wrapper; `fresh` is a key drawn by
`Fernet.generate_key()`, identified by the randomness of its run. -/
inductive Key where
  | pbkdf2hmac (alg : HashAlg) (length : Nat) (salt : List Nat) (iterations : Nat)
      (password : String)
  | urlsafe_b64 (k : Key)
  | fresh (seed : Nat)
  deriving DecidableEq

/-- Model of `PBKDF2HMAC(...).derive(password)`: a pure function of the
algorithm, output length, salt, iteration count and password, and of nothing
else (the library derivation draws no randomness). -/
def PBKDF2HMAC.derive (alg : HashAlg) (length : Nat) (salt : List Nat) (iterations : Nat)
    (password : String) : Key :=
  Key.pbkdf2hmac alg length salt iterations password

/-- A Fernet token: authenticated ciphertext carrying its own nonce.  The
symbolic token records the key that produced it. -/
structure FernetToken where
  nonce : Nat
  key : Key
  message : Key
  deriving DecidableEq

/-- Model of `Fernet(key).encrypt(message)`; the nonce drawn inside the library
call is passed explicitly. -/
def Fernet.encrypt (key : Key) (nonce : Nat) (message : Key) : FernetToken :=
  { nonce := nonce, key := key, message := message }

/-- Model of `Fernet(key).decrypt(token)` as ideal authenticated encryption:
decryption returns the message exactly under the key that produced the token
and fails closed (`none`, the library's `InvalidToken`) under every other
key. -/
def Fernet.decrypt (key : Key) (t : FernetToken) : Option Key :=
  if t.key = key then some t.message else none

/-- The `User` dataclass (`src/pwm.py` lines 109-113).  The source stores the
wrapped key and the salt as base64-encoded strings; the encodings are lossless,
so the model keeps the structured values. -/
structure User where
  username : String
  encrypted_data_key : FernetToken
  salt : List Nat
  deriving DecidableEq

/-- The `account new` command core (`src/pwm.py` lines 242-259): derive the user
key from the password and a fresh 16-byte salt with PBKDF2HMAC-SHA256 (length
32, 100000 iterations), base64-encode it, generate a fresh data key, wrap the
data key with Fernet under the user key, and build the `User` record.  The
random draws (`os.urandom(16)`, `Fernet.generate_key()`, the nonce inside
`encrypt`) are parameters. -/
def account_new (username : String) (password : String) (salt : List Nat)
    (data_key_seed : Nat) (nonce : Nat) : User :=
  let user_key := Key.urlsafe_b64 (PBKDF2HMAC.derive HashAlg.sha256 32 salt 100000 password)
  let data_key := Key.fresh data_key_seed
  let encrypted_data_key := Fernet.encrypt user_key nonce data_key
  { username := username, encrypted_data_key := encrypted_data_key, salt := salt }

/-- Outcome of authentication per the specification. -/
inductive AuthResult where
  | DataKey (k : Key)
  | AuthFailure
  deriving DecidableEq

/-- Modelled from the spec: `authenticate(account, passphrase)` of section 4.2
is not implemented in the source (the `sign_in` command, `src/pwm.py` lines
262-265, is an empty stub).  Per the spec it derives the key exactly as account
creation does (same KDF, same persisted salt, same hard-coded parameters) and
attempts to unwrap `wrapped_data_key`; unwrap failure is reported as
`AuthFailure`. -/
def authenticate (user : User) (passphrase : String) : AuthResult :=
  let user_key := Key.urlsafe_b64 (PBKDF2HMAC.derive HashAlg.sha256 32 user.salt 100000 passphrase)
  match Fernet.decrypt user_key user.encrypted_data_key with
  | some dk => AuthResult.DataKey dk
  | none => AuthResult.AuthFailure

/-- Fresh sites store, as built by the `sites` group on first use:
`DataclassDatabase('sites', Site)` with no backing file. -/
def dbEmptySites : DataclassDatabase Site :=
  (DataclassDatabase.init Site.ser "Site" "sites.json").1

/-- A sites store holding one record, used as a concrete witness state. -/
def dbOneSite : DataclassDatabase Site :=
  { class_ := "Site"
    database_path := "sites.json"
    data := [("github", { login := "alice@example.com", password := "hunter2" })]
    n_entries := 1 }

/-- A concrete persisted sites file with the correct schema tag. -/
def fileSites : DBFile (String × String) :=
  { class_ := "Site", data := [("github", ("a", "b"))] }

/-- The state obtained by loading `fileSites`, used as a concrete witness. -/
def dbLoaded : DataclassDatabase Site :=
  { class_ := "Site"
    database_path := "sites.json"
    data := [("github", { login := "a", password := "b" })]
    n_entries := 1 }

theorem dictLookup_dictSet_self (d : List (String × α)) (name : String) (v : α) :
    dictLookup (dictSet d name v) name = some v := by
  induction d with
  | nil => simp [dictSet, dictLookup]
  | cons p rest ih =>
    obtain ⟨k, w⟩ := p
    by_cases h : k = name
    · simp [dictSet, dictLookup, h]
    · simp [dictSet, dictLookup, h, ih]

theorem dictLookup_dictRemove_self (d : List (String × α)) (name : String) :
    dictLookup (dictRemove d name) name = none := by
  induction d with
  | nil => simp [dictRemove, dictLookup]
  | cons p rest ih =>
    obtain ⟨k, w⟩ := p
    by_cases h : k = name
    · simp [dictRemove, h, ih]
    · simp [dictRemove, dictLookup, h, ih]

/-- Claim C3: for every store state, every name not present in the store and
every record, after `new(name, r)` succeeds, `get(name)` returns exactly `r`. -/
theorem new_then_get {α ρ : Type} (ser : α → ρ) (db : DataclassDatabase α) (name : String)
    (r : α) (h : dictLookup db.data name = none) :
    (DataclassDatabase.new ser db name r).1 = Except.ok () ∧
    DataclassDatabase.get (DataclassDatabase.new ser db name r).2.1 name = Except.ok r := by
  refine ⟨?_, ?_⟩
  · simp [DataclassDatabase.new, h]
  · simp [DataclassDatabase.new, DataclassDatabase.get, DataclassDatabase.update_n_entries, h,
      dictLookup_dictSet_self]

theorem new_then_get_witness :
    (DataclassDatabase.new Site.ser dbEmptySites "github"
      { login := "alice@example.com", password := "hunter2" }).1 = Except.ok () ∧
    DataclassDatabase.get (DataclassDatabase.new Site.ser dbEmptySites "github"
      { login := "alice@example.com", password := "hunter2" }).2.1 "github" =
      Except.ok { login := "alice@example.com", password := "hunter2" } :=
  new_then_get Site.ser dbEmptySites "github"
    { login := "alice@example.com", password := "hunter2" } rfl

/-- Claim C1, evaluated at the failing input: on a fresh store the `sites new`
command stores the supplied password verbatim as the record's `password` field
(plaintext, not ciphertext of any cipher), and `sites get` returns that
plaintext without any decryption.  The Secret Record Cipher of the
specification is never applied by the source. -/
theorem sites_password_not_encrypted :
    DataclassDatabase.get
      (sites_new dbEmptySites "github" "alice@example.com" "hunter2").2.1 "github" =
      Except.ok { login := "alice@example.com", password := "hunter2" } ∧
    sites_get (sites_new dbEmptySites "github" "alice@example.com" "hunter2").2.1
      "github" false = Except.ok "hunter2" := by
  refine ⟨?_, ?_⟩ <;> rfl

/-- Claim C2: authenticating an account created with passphrase `p1` fails with
`AuthFailure` under any other passphrase `p2` (the wrapped data key fails to
unwrap), and succeeds with the original data key under `p1`. -/
theorem authenticate_correct (u p1 p2 : String) (salt : List Nat) (seed nonce : Nat)
    (h : p1 ≠ p2) :
    authenticate (account_new u p1 salt seed nonce) p2 = AuthResult.AuthFailure ∧
    authenticate (account_new u p1 salt seed nonce) p1 =
      AuthResult.DataKey (Key.fresh seed) := by
  refine ⟨?_, ?_⟩
  · simp [authenticate, account_new, Fernet.decrypt, Fernet.encrypt, PBKDF2HMAC.derive, h]
  · simp [authenticate, account_new, Fernet.decrypt, Fernet.encrypt, PBKDF2HMAC.derive]

theorem authenticate_correct_witness :
    authenticate (account_new "alice" "Secr3t!" (List.replicate 16 7) 3 5) "wrong" =
      AuthResult.AuthFailure ∧
    authenticate (account_new "alice" "Secr3t!" (List.replicate 16 7) 3 5) "Secr3t!" =
      AuthResult.DataKey (Key.fresh 3) :=
  authenticate_correct "alice" "Secr3t!" "wrong" (List.replicate 16 7) 3 5 (by decide)

/-- Claim C4: `new` on a name already present fails with `AlreadyExistsError`,
leaves the entire store state unchanged, performs no file write, and the
previously stored record is still returned by `get`. -/
theorem new_existing_unchanged {α ρ : Type} (ser : α → ρ) (db : DataclassDatabase α)
    (name : String) (r r0 : α) (h : dictLookup db.data name = some r0) :
    DataclassDatabase.new ser db name r =
      (Except.error DBError.AlreadyExistsError, db, []) ∧
    DataclassDatabase.get db name = Except.ok r0 := by
  refine ⟨?_, ?_⟩
  · simp [DataclassDatabase.new, h]
  · simp [DataclassDatabase.get, h]

theorem new_existing_unchanged_witness :
    DataclassDatabase.new Site.ser dbOneSite "github" { login := "x", password := "y" } =
      (Except.error DBError.AlreadyExistsError, dbOneSite, []) ∧
    DataclassDatabase.get dbOneSite "github" =
      Except.ok { login := "alice@example.com", password := "hunter2" } :=
  new_existing_unchanged Site.ser dbOneSite "github" { login := "x", password := "y" }
    { login := "alice@example.com", password := "hunter2" } rfl

/-- Claim C5: `remove(name)` fails with `DoesNotExistError` and leaves the
store unchanged (no file write) when the name is absent; after a successful
`remove(name)`, `get(name)` fails with `DoesNotExistError`. -/
theorem remove_spec {α ρ : Type} (ser : α → ρ) (db : DataclassDatabase α) (name : String) :
    (dictLookup db.data name = none →
      DataclassDatabase.remove ser db name =
        (Except.error DBError.DoesNotExistError, db, [])) ∧
    (∀ r, dictLookup db.data name = some r →
      (DataclassDatabase.remove ser db name).1 = Except.ok () ∧
      DataclassDatabase.get (DataclassDatabase.remove ser db name).2.1 name =
        Except.error DBError.DoesNotExistError) := by
  refine ⟨?_, ?_⟩
  · intro h
    simp [DataclassDatabase.remove, h]
  · intro r h
    refine ⟨?_, ?_⟩
    · simp [DataclassDatabase.remove, h]
    · simp [DataclassDatabase.remove, DataclassDatabase.get,
        DataclassDatabase.update_n_entries, h, dictLookup_dictRemove_self]

theorem remove_spec_witness :
    DataclassDatabase.remove Site.ser dbEmptySites "github" =
      (Except.error DBError.DoesNotExistError, dbEmptySites, []) ∧
    ((DataclassDatabase.remove Site.ser dbOneSite "github").1 = Except.ok () ∧
      DataclassDatabase.get (DataclassDatabase.remove Site.ser dbOneSite "github").2.1
        "github" = Except.error DBError.DoesNotExistError) :=
  ⟨(remove_spec Site.ser dbEmptySites "github").1 rfl,
   (remove_spec Site.ser dbOneSite "github").2
     { login := "alice@example.com", password := "hunter2" } rfl⟩

/-- Claim C6: loading a persisted store whose schema tag differs from the
expected schema fails with `DatabaseClassMismatchError`, for every
deserializer and every file content — no record is deserialized and no
best-effort parsing of the wrong schema is attempted. -/
theorem load_schema_mismatch {α ρ : Type} (class_ database_path : String) (deser : ρ → α)
    (f : DBFile ρ) (h : f.class_ ≠ class_) :
    DataclassDatabase.load class_ database_path deser f =
      Except.error DBError.DatabaseClassMismatchError := by
  simp [DataclassDatabase.load, h]

theorem load_schema_mismatch_witness :
    DataclassDatabase.load "Site" "sites.json" Site.deser
      { class_ := "User", data := [("alice", ("k", "s"))] } =
      Except.error DBError.DatabaseClassMismatchError :=
  load_schema_mismatch "Site" "sites.json" Site.deser
    { class_ := "User", data := [("alice", ("k", "s"))] } (by decide)

/-- Claim C7: `drop` is idempotent — both the first and the second call succeed
without error, the store is empty after each, and the second call leaves the
state of the first unchanged. -/
theorem drop_idempotent {α ρ : Type} (ser : α → ρ) (db : DataclassDatabase α) :
    (DataclassDatabase.drop ser db).1 = Except.ok () ∧
    (DataclassDatabase.drop ser db).2.1.data = [] ∧
    (DataclassDatabase.drop ser (DataclassDatabase.drop ser db).2.1).1 = Except.ok () ∧
    (DataclassDatabase.drop ser (DataclassDatabase.drop ser db).2.1).2.1 =
      (DataclassDatabase.drop ser db).2.1 := by
  refine ⟨rfl, rfl, rfl, ?_⟩
  simp [DataclassDatabase.drop, DataclassDatabase.update_n_entries]

/-- Claim C8, counterexample: the trace of a concrete mutating operation
(`drop` on a one-record store) is not of the write-new-file-then-replace-old
shape — it opens the backing file in truncating write mode. -/
theorem save_truncates_in_place :
    ¬ writes_new_then_replaces ((DataclassDatabase.drop Site.ser dbOneSite).2.2) := by
  intro h
  exact h.2 "sites.json"
    (by simp [DataclassDatabase.drop, DataclassDatabase.save,
      DataclassDatabase.update_n_entries, dbOneSite])

/-- Claim C8 as amended: every mutating store operation (`new`, `remove`,
`drop`, `init`), when it persists at all, fully serializes the in-memory state
and writes it through `save`, and `save` is an in-place truncating rewrite of
the backing file (`open(path, 'w')` followed by writing the whole serialized
state) — not a write-new-file-then-replace-old. -/
theorem mutating_ops_serialize_and_truncate {α ρ : Type} (ser : α → ρ)
    (db : DataclassDatabase α) (class_ path nameN nameR : String) (r : α) :
    (DataclassDatabase.drop ser db).2.2 =
      DataclassDatabase.save ser (DataclassDatabase.drop ser db).2.1 ∧
    (DataclassDatabase.init ser class_ path).2 =
      DataclassDatabase.save ser (DataclassDatabase.init ser class_ path (α := α)).1 ∧
    ((DataclassDatabase.new ser db nameN r).1 = Except.ok () →
      (DataclassDatabase.new ser db nameN r).2.2 =
        DataclassDatabase.save ser (DataclassDatabase.new ser db nameN r).2.1) ∧
    ((DataclassDatabase.remove ser db nameR).1 = Except.ok () →
      (DataclassDatabase.remove ser db nameR).2.2 =
        DataclassDatabase.save ser (DataclassDatabase.remove ser db nameR).2.1) ∧
    DataclassDatabase.save ser db =
      [FileOp.openTruncate db.database_path,
       FileOp.writeContent db.database_path (serializeDB ser db)] := by
  refine ⟨rfl, rfl, ?_, ?_, rfl⟩
  · intro h
    cases hc : dictLookup db.data nameN with
    | none => simp [DataclassDatabase.new, hc]
    | some v => simp [DataclassDatabase.new, hc] at h
  · intro h
    cases hc : dictLookup db.data nameR with
    | none => simp [DataclassDatabase.remove, hc] at h
    | some v => simp [DataclassDatabase.remove, hc]

theorem mutating_ops_serialize_and_truncate_witness :
    (DataclassDatabase.drop Site.ser dbOneSite).2.2 =
      DataclassDatabase.save Site.ser (DataclassDatabase.drop Site.ser dbOneSite).2.1 ∧
    (DataclassDatabase.init Site.ser "Site" "sites.json").2 =
      DataclassDatabase.save Site.ser
        (DataclassDatabase.init Site.ser "Site" "sites.json" (α := Site)).1 ∧
    (DataclassDatabase.new Site.ser dbOneSite "gitlab"
        { login := "a", password := "b" }).2.2 =
      DataclassDatabase.save Site.ser
        (DataclassDatabase.new Site.ser dbOneSite "gitlab"
          { login := "a", password := "b" }).2.1 ∧
    (DataclassDatabase.remove Site.ser dbOneSite "github").2.2 =
      DataclassDatabase.save Site.ser
        (DataclassDatabase.remove Site.ser dbOneSite "github").2.1 ∧
    DataclassDatabase.save Site.ser dbOneSite =
      [FileOp.openTruncate dbOneSite.database_path,
       FileOp.writeContent dbOneSite.database_path (serializeDB Site.ser dbOneSite)] := by
  obtain ⟨h1, h2, h3, h4, h5⟩ :=
    mutating_ops_serialize_and_truncate Site.ser dbOneSite "Site" "sites.json" "gitlab"
      "github" { login := "a", password := "b" }
  exact ⟨h1, h2, h3 rfl, h4 rfl, h5⟩

/-- Claim C9: the key derivation performed at account creation is a
deterministic function of the passphrase, the salt, and the hard-coded KDF
parameters alone — two account creations with the same passphrase and salt but
different usernames and different random draws (data-key seed, wrapping nonce)
derive the same wrapping key.  The output length is the fixed parameter 32
passed to the KDF at the call site. -/
theorem derive_key_deterministic (u1 u2 p : String) (salt : List Nat)
    (seed1 seed2 nonce1 nonce2 : Nat) :
    (account_new u1 p salt seed1 nonce1).encrypted_data_key.key =
      (account_new u2 p salt seed2 nonce2).encrypted_data_key.key ∧
    (account_new u1 p salt seed1 nonce1).encrypted_data_key.key =
      Key.urlsafe_b64 (PBKDF2HMAC.derive HashAlg.sha256 32 salt 100000 p) :=
  ⟨rfl, rfl⟩

/-- Claim C10: the entry counter equals the number of records in the mapping
after construction (`init`, `load`, `__init__`) and after every mutating
operation; `get` does not modify the state at all in the embedding, so the
invariant is trivially preserved by it. -/
theorem n_entries_invariant {α ρ : Type} (ser : α → ρ) (deser : ρ → α)
    (db db2 db3 : DataclassDatabase α) (class_ path dpath name : String) (r : α)
    (f : DBFile ρ) (file : Option (DBFile ρ)) (t : List (FileOp ρ)) :
    (DataclassDatabase.init ser class_ path (α := α)).1.inv ∧
    (DataclassDatabase.load class_ path deser f = Except.ok db2 → db2.inv) ∧
    (DataclassDatabase.construct ser deser class_ dpath file = Except.ok (db3, t) →
      db3.inv) ∧
    (db.inv → (DataclassDatabase.new ser db name r).2.1.inv) ∧
    (db.inv → (DataclassDatabase.remove ser db name).2.1.inv) ∧
    (DataclassDatabase.drop ser db).2.1.inv := by
  have hload : ∀ (pth : String) (g : DBFile ρ) (d : DataclassDatabase α),
      DataclassDatabase.load class_ pth deser g = Except.ok d → d.inv := by
    intro pth g d h
    simp only [DataclassDatabase.load] at h
    split at h
    · exact absurd h (by simp)
    · injection h with h2
      rw [← h2]
      simp [DataclassDatabase.inv, DataclassDatabase.update_n_entries]
  refine ⟨?_, hload path f db2, ?_, ?_, ?_, ?_⟩
  · simp [DataclassDatabase.init, DataclassDatabase.inv, DataclassDatabase.update_n_entries]
  · intro h
    cases file with
    | none =>
      simp only [DataclassDatabase.construct] at h
      injection h with h2
      have h3 : (DataclassDatabase.init ser class_ (dpath ++ ".json") (α := α)).1 = db3 :=
        congrArg Prod.fst h2
      rw [← h3]
      simp [DataclassDatabase.init, DataclassDatabase.inv, DataclassDatabase.update_n_entries]
    | some f2 =>
      simp only [DataclassDatabase.construct] at h
      cases hl : DataclassDatabase.load class_ (dpath ++ ".json") deser f2
          (α := α) with
      | error e => rw [hl] at h; exact absurd h (by simp)
      | ok d =>
        rw [hl] at h
        injection h with h2
        have h3 : d = db3 := congrArg Prod.fst h2
        rw [← h3]
        exact hload (dpath ++ ".json") f2 d hl
  · intro hi
    cases hc : dictLookup db.data name with
    | none =>
      simp [DataclassDatabase.new, hc, DataclassDatabase.inv,
        DataclassDatabase.update_n_entries]
    | some v => simpa [DataclassDatabase.new, hc, DataclassDatabase.inv] using hi
  · intro hi
    cases hc : dictLookup db.data name with
    | none => simpa [DataclassDatabase.remove, hc, DataclassDatabase.inv] using hi
    | some v =>
      simp [DataclassDatabase.remove, hc, DataclassDatabase.inv,
        DataclassDatabase.update_n_entries]
  · simp [DataclassDatabase.drop, DataclassDatabase.inv, DataclassDatabase.update_n_entries]

theorem n_entries_invariant_witness :
    (DataclassDatabase.init Site.ser "Site" "sites.json" (α := Site)).1.inv ∧
    dbLoaded.inv ∧
    dbLoaded.inv ∧
    (DataclassDatabase.new Site.ser dbOneSite "gitlab"
      { login := "a", password := "b" }).2.1.inv ∧
    (DataclassDatabase.remove Site.ser dbOneSite "gitlab").2.1.inv ∧
    (DataclassDatabase.drop Site.ser dbOneSite).2.1.inv := by
  obtain ⟨h1, h2, h3, h4, h5, h6⟩ :=
    n_entries_invariant Site.ser Site.deser dbOneSite dbLoaded dbLoaded "Site"
      "sites.json" "sites" "gitlab" { login := "a", password := "b" } fileSites
      (some fileSites) []
  exact ⟨h1, h2 rfl, h3 rfl, h4 rfl, h5 rfl, h6⟩
